import Mathlib

/-!
Verification of the banner-maker export pipeline (`src/js/export.js`, with the
color-parsing fragment from the related draft `src/unnamed/part_000`).

The JavaScript source is shallowly embedded:
* JS numbers appearing in the geometry resolver are modelled by `JSNum`
  (a rational together with the IEEE special values `Infinity`, `-Infinity`,
  `NaN`; signed zero is not distinguished), so that the behaviour of
  `previewRect.width / previewRect.height` on degenerate rectangles is kept.
* purely finite arithmetic (crop rectangle, scaled lengths, saturation) is
  modelled over `ℚ`.
* the straight-line sequence of canvas drawing calls is modelled as an
  explicit event trace.
* the `rgba?(...)` regular-expression match of the draft is modelled as an
  executable matcher over `List Char` (JS `\s` restricted to ASCII
  whitespace, which covers every string the call site can produce).
-/

namespace BannerExport

/-- JS double restricted to the values the geometry resolver can produce:
either a finite rational or one of the IEEE special values. -/
inductive JSNum where
  | fin (q : ℚ)
  | posInf
  | negInf
  | nan
  deriving DecidableEq

/-- JS division, including division by zero (`x / 0` is `±Infinity` for
`x ≠ 0` and `NaN` for `0 / 0`); `NaN` propagates, `Infinity / Infinity = NaN`.
Signed zero is ignored. -/
def JSNum.div : JSNum → JSNum → JSNum
  | .fin a, .fin b =>
      if b ≠ 0 then .fin (a / b)
      else if 0 < a then .posInf
      else if a < 0 then .negInf
      else .nan
  | .fin _, .posInf => .fin 0
  | .fin _, .negInf => .fin 0
  | .posInf, .fin b => if b < 0 then .negInf else .posInf
  | .negInf, .fin b => if b < 0 then .posInf else .negInf
  | _, _ => .nan

/-- JS multiplication; `0 × Infinity = NaN`, `NaN` propagates. -/
def JSNum.mul : JSNum → JSNum → JSNum
  | .fin a, .fin b => .fin (a * b)
  | .fin a, .posInf => if 0 < a then .posInf else if a < 0 then .negInf else .nan
  | .fin a, .negInf => if 0 < a then .negInf else if a < 0 then .posInf else .nan
  | .posInf, .fin b => if 0 < b then .posInf else if b < 0 then .negInf else .nan
  | .negInf, .fin b => if 0 < b then .negInf else if b < 0 then .posInf else .nan
  | .posInf, .posInf => .posInf
  | .posInf, .negInf => .negInf
  | .negInf, .posInf => .negInf
  | .negInf, .negInf => .posInf
  | _, _ => .nan

/-- JS `>` comparison: any comparison involving `NaN` is false. -/
def JSNum.gt : JSNum → JSNum → Bool
  | .fin a, .fin b => decide (b < a)
  | .fin _, .negInf => true
  | .fin _, _ => false
  | .posInf, .fin _ => true
  | .posInf, .negInf => true
  | .posInf, _ => false
  | .negInf, _ => false
  | .nan, _ => false

/-- `Math.round` on a finite value: round half toward positive infinity. -/
def jround (q : ℚ) : ℚ := ((⌊q + 1 / 2⌋ : ℤ) : ℚ)

/-- `Math.round`, which maps the special values to themselves. -/
def JSNum.round : JSNum → JSNum
  | .fin q => .fin (jround q)
  | .posInf => .posInf
  | .negInf => .negInf
  | .nan => .nan

/-- JS truthiness of the optional `fixWidth` / `fixHeight` arguments:
`null`/`undefined` (`none`), `0` and `NaN` are falsy, every other number is
truthy. -/
def jsTruthy : Option JSNum → Bool
  | none => false
  | some (.fin q) => decide (q ≠ 0)
  | some .nan => false
  | some _ => true

/-- Target-dimension resolution of `exportBanner`
(`src/js/export.js`, lines 62-92): aspect ratios are computed up front, then
the `fixWidth`/`fixHeight` truthiness selects one of three branches. -/
def resolveTarget (previewW previewH imgW imgH : JSNum)
    (fixW fixH : Option JSNum) : JSNum × JSNum :=
  let imgAspect := imgW.div imgH
  let previewAspect := previewW.div previewH
  if jsTruthy fixW && jsTruthy fixH then
    (fixW.getD .nan, fixH.getD .nan)
  else if jsTruthy fixW || jsTruthy fixH then
    if previewAspect.gt imgAspect then
      (imgW, (imgW.div previewAspect).round)
    else
      ((imgH.mul previewAspect).round, imgH)
  else
    (imgW, imgH)

theorem JSNum.div_fin_of_ne (a b : ℚ) (hb : b ≠ 0) :
    JSNum.div (.fin a) (.fin b) = .fin (a / b) := by
  simp [JSNum.div, hb]

theorem JSNum.mul_fin (a b : ℚ) :
    JSNum.mul (.fin a) (.fin b) = .fin (a * b) := rfl

theorem JSNum.gt_fin (a b : ℚ) :
    JSNum.gt (.fin a) (.fin b) = decide (b < a) := rfl

theorem JSNum.round_fin (q : ℚ) :
    JSNum.round (.fin q) = .fin (jround q) := rfl

theorem jsTruthy_pos {q : ℚ} (hq : q ≠ 0) : jsTruthy (some (.fin q)) = true := by
  simp [jsTruthy, hq]

/-- Claim C1 (confirmed): for every combination of the optional fixed
dimensions (with positive preview and natural image dimensions),
`resolveTarget` follows the three branch rules of §4.1: both fixed gives
`(fixedWidth, fixedHeight)`; exactly one fixed gives
`(naturalWidth, round(naturalWidth / previewAspect))` when
`previewAspect > imageAspect` and
`(round(naturalHeight * previewAspect), naturalHeight)` otherwise; neither
fixed gives the natural image size.  In particular natural image 1200 by 800,
preview aspect 2:1 and `fixedWidth = 600` alone yield target (1200, 600). -/
theorem C1_export_dimensions (pw ph iw ih : ℚ)
    (hpw : 0 < pw) (hph : 0 < ph) (hiw : 0 < iw) (hih : 0 < ih) :
    (∀ w h : ℚ, 0 < w → 0 < h →
      resolveTarget (.fin pw) (.fin ph) (.fin iw) (.fin ih)
          (some (.fin w)) (some (.fin h)) = (.fin w, .fin h)) ∧
    (∀ w : ℚ, 0 < w →
      resolveTarget (.fin pw) (.fin ph) (.fin iw) (.fin ih)
          (some (.fin w)) none
        = if iw / ih < pw / ph
          then (.fin iw, .fin (jround (iw / (pw / ph))))
          else (.fin (jround (ih * (pw / ph))), .fin ih)) ∧
    (∀ h : ℚ, 0 < h →
      resolveTarget (.fin pw) (.fin ph) (.fin iw) (.fin ih)
          none (some (.fin h))
        = if iw / ih < pw / ph
          then (.fin iw, .fin (jround (iw / (pw / ph))))
          else (.fin (jround (ih * (pw / ph))), .fin ih)) ∧
    resolveTarget (.fin pw) (.fin ph) (.fin iw) (.fin ih) none none
      = (.fin iw, .fin ih) ∧
    resolveTarget (.fin 2) (.fin 1) (.fin 1200) (.fin 800)
        (some (.fin 600)) none = (.fin 1200, .fin 600) := by
  have hpa : pw / ph ≠ 0 := (div_pos hpw hph).ne'
  refine ⟨?_, ?_, ?_, ?_, ?_⟩
  · intro w h hw hh
    simp [resolveTarget, jsTruthy, hw.ne', hh.ne']
  · intro w hw
    rw [resolveTarget]
    rw [JSNum.div_fin_of_ne _ _ hih.ne', JSNum.div_fin_of_ne _ _ hph.ne']
    simp only [jsTruthy_pos hw.ne', jsTruthy, Bool.and_false, Bool.true_or,
      Bool.false_eq_true, if_false, if_true, JSNum.gt_fin]
    by_cases hc : iw / ih < pw / ph
    · rw [JSNum.div_fin_of_ne _ _ hpa]
      simp [hc, JSNum.round_fin, hw.ne']
    · simp [hc, JSNum.mul_fin, JSNum.round_fin, hw.ne']
  · intro h hh
    rw [resolveTarget]
    rw [JSNum.div_fin_of_ne _ _ hih.ne', JSNum.div_fin_of_ne _ _ hph.ne']
    simp only [jsTruthy_pos hh.ne', jsTruthy, Bool.false_and, Bool.or_true,
      Bool.false_eq_true, if_false, if_true, JSNum.gt_fin]
    by_cases hc : iw / ih < pw / ph
    · rw [JSNum.div_fin_of_ne _ _ hpa]
      simp [hc, JSNum.round_fin, hh.ne']
    · simp [hc, JSNum.mul_fin, JSNum.round_fin, hh.ne']
  · simp [resolveTarget, jsTruthy]
  · norm_num [resolveTarget, JSNum.div, JSNum.gt, JSNum.mul, JSNum.round,
      jsTruthy, jround]

/-- Witness for C1 at the concrete input of the claim: preview aspect 2:1,
natural image 1200 by 800, only `fixedWidth = 600` given. -/
theorem C1_export_dimensions_witness :
    resolveTarget (.fin 2) (.fin 1) (.fin 1200) (.fin 800)
        (some (.fin 600)) none = (.fin 1200, .fin 600) :=
  (C1_export_dimensions 2 1 1200 800 (by norm_num) (by norm_num)
    (by norm_num) (by norm_num)).2.2.2.2

/-- Claim C8 counterexample: with a zero preview height the resolver does
not fail; it completes and can even produce a `NaN` target dimension
(preview 400 by 0, image 1200 by 0, `fixedWidth = 600` gives target
`(NaN, 0)`), so no `ConfigurationError` path exists. -/
theorem C8_zero_height_counterexample :
    resolveTarget (.fin 400) (.fin 0) (.fin 1200) (.fin 0)
        (some (.fin 600)) none = (.nan, .fin 0) := by
  norm_num [resolveTarget, JSNum.div, JSNum.gt, JSNum.mul, JSNum.round,
    jsTruthy, jround]

/-- Claim C8 (corrected): nothing validates the input rectangles; with a zero
preview height the resolver divides anyway (the preview aspect becomes
`Infinity`) and returns a degenerate target -- height 0 for a normal image,
and a `NaN` width when the image height is also 0 -- instead of raising any
`ConfigurationError`. -/
theorem C8_zero_height_amended :
    resolveTarget (.fin 400) (.fin 0) (.fin 1200) (.fin 800)
        (some (.fin 600)) none = (.fin 1200, .fin 0) ∧
    resolveTarget (.fin 400) (.fin 0) (.fin 1200) (.fin 0)
        (some (.fin 600)) none = (.nan, .fin 0) := by
  constructor <;>
    norm_num [resolveTarget, JSNum.div, JSNum.gt, JSNum.mul, JSNum.round,
      jsTruthy, jround]

/-- Claim C10 (confirmed): a fixed dimension of `0` is falsy, so it is
treated exactly as an absent dimension: with `fixedWidth = 0` and no
`fixedHeight` the neither-fixed branch runs and the target is the natural
image size; with `fixedWidth = 0` and a nonzero `fixedHeight` the
exactly-one-fixed branch runs; the zero value is never adopted as an output
dimension. -/
theorem C10_zero_fixed_dimension (pw ph iw ih : JSNum) (fw fh : Option JSNum)
    (h : ℚ) (hh : h ≠ 0) :
    resolveTarget pw ph iw ih (some (.fin 0)) fh
      = resolveTarget pw ph iw ih none fh ∧
    resolveTarget pw ph iw ih fw (some (.fin 0))
      = resolveTarget pw ph iw ih fw none ∧
    resolveTarget pw ph iw ih (some (.fin 0)) none = (iw, ih) ∧
    resolveTarget pw ph iw ih (some (.fin 0)) (some (.fin 0)) = (iw, ih) ∧
    resolveTarget pw ph iw ih (some (.fin 0)) (some (.fin h))
      = if (pw.div ph).gt (iw.div ih)
        then (iw, (iw.div (pw.div ph)).round)
        else ((ih.mul (pw.div ph)).round, ih) := by
  refine ⟨?_, ?_, ?_, ?_, ?_⟩
  · simp [resolveTarget, jsTruthy]
  · simp [resolveTarget, jsTruthy]
  · simp [resolveTarget, jsTruthy]
  · simp [resolveTarget, jsTruthy]
  · simp [resolveTarget, jsTruthy, hh]

/-- Witness for C10: with preview 2 by 1, image 1200 by 800, `fixedWidth = 0`
and `fixedHeight = 400`, the resolver behaves as in the one-fixed branch. -/
theorem C10_zero_fixed_dimension_witness :
    resolveTarget (.fin 2) (.fin 1) (.fin 1200) (.fin 800)
        (some (.fin 0)) none = (.fin 1200, .fin 800) :=
  (C10_zero_fixed_dimension (.fin 2) (.fin 1) (.fin 1200) (.fin 800)
    none none 400 (by norm_num)).2.2.1

/-- Source-crop rectangle `{sx, sy, sw, sh}` into the natural image. -/
structure CropRect where
  sx : ℚ
  sy : ℚ
  sw : ℚ
  sh : ℚ
  deriving DecidableEq

/-- JS truthiness of an optional finite number (used by the crop section,
whose arithmetic stays finite for the claims considered). -/
def truthyQ : Option ℚ → Bool
  | none => false
  | some q => decide (q ≠ 0)

/-- Source-crop computation of `exportBanner` (`src/js/export.js`,
lines 113-129): starting from the full image, whenever at least one fixed
dimension is truthy the source is cropped centered to the already-resolved
target aspect ratio (`exportW / exportH`). -/
def computeCrop (imgW imgH : ℚ) (fixW fixH : Option ℚ)
    (exportW exportH : ℚ) : CropRect :=
  if truthyQ fixW || truthyQ fixH then
    let targetAspect := exportW / exportH
    let sourceAspect := imgW / imgH
    if sourceAspect < targetAspect then
      let sh := imgW / targetAspect
      ⟨0, (imgH - sh) / 2, imgW, sh⟩
    else if targetAspect < sourceAspect then
      let sw := imgH * targetAspect
      ⟨(imgW - sw) / 2, 0, sw, imgH⟩
    else ⟨0, 0, imgW, imgH⟩
  else ⟨0, 0, imgW, imgH⟩

/-- Specification-side predicate: `c` is a centered crop of the `imgW` by
`imgH` source whose aspect ratio equals the target aspect `exportW / exportH`
and which stays inside the source. -/
def centeredCropTo (imgW imgH exportW exportH : ℚ) (c : CropRect) : Prop :=
  c.sx = (imgW - c.sw) / 2 ∧ c.sy = (imgH - c.sh) / 2 ∧
  c.sw * exportH = c.sh * exportW ∧
  0 < c.sw ∧ c.sw ≤ imgW ∧ 0 < c.sh ∧ c.sh ≤ imgH

/-- Claim C2 counterexample: in the exactly-one-fixed configuration of the
claim (image 1200 by 800, preview aspect 2:1, `fixedWidth = 600`, resolved
target 1200 by 600) the code does apply a crop: the source rectangle is the
centered 1200 by 600 band (`sy = 100`), not the full image. -/
theorem C2_one_fixed_crop_counterexample :
    resolveTarget (.fin 2) (.fin 1) (.fin 1200) (.fin 800)
        (some (.fin 600)) none = (.fin 1200, .fin 600) ∧
    computeCrop 1200 800 (some 600) none 1200 600 = ⟨0, 100, 1200, 600⟩ ∧
    computeCrop 1200 800 (some 600) none 1200 600 ≠ ⟨0, 0, 1200, 800⟩ := by
  refine ⟨?_, ?_, ?_⟩
  · norm_num [resolveTarget, JSNum.div, JSNum.gt, JSNum.mul, JSNum.round,
      jsTruthy, jround]
  · norm_num [computeCrop, truthyQ, CropRect.mk.injEq]
  · norm_num [computeCrop, truthyQ, CropRect.mk.injEq]

/-- Claim C2 (corrected): the crop branch runs whenever at least one fixed
dimension is given (not only when both are): the source is then cropped
centered to the target aspect ratio, cropping the longer source axis
(`sy = (naturalHeight - sh) / 2` as the claim states for the both-fixed
case); only when neither dimension is given is the full source used. -/
theorem centeredCropTo_mk (imgW imgH exportW exportH sx sy sw sh : ℚ) :
    centeredCropTo imgW imgH exportW exportH ⟨sx, sy, sw, sh⟩ ↔
      (sx = (imgW - sw) / 2 ∧ sy = (imgH - sh) / 2 ∧
        sw * exportH = sh * exportW ∧
        0 < sw ∧ sw ≤ imgW ∧ 0 < sh ∧ sh ≤ imgH) := Iff.rfl

theorem C2_source_crop_amended (imgW imgH exportW exportH : ℚ)
    (fixW fixH : Option ℚ) (hiw : 0 < imgW) (hih : 0 < imgH)
    (hew : 0 < exportW) (heh : 0 < exportH) :
    ((truthyQ fixW || truthyQ fixH) = false →
      computeCrop imgW imgH fixW fixH exportW exportH = ⟨0, 0, imgW, imgH⟩) ∧
    ((truthyQ fixW || truthyQ fixH) = true →
      centeredCropTo imgW imgH exportW exportH
        (computeCrop imgW imgH fixW fixH exportW exportH)) := by
  have hta : 0 < exportW / exportH := div_pos hew heh
  have e1 : imgW / imgH * imgH = imgW := div_mul_cancel₀ _ hih.ne'
  constructor
  · intro hfix
    simp [computeCrop, hfix]
  · intro hfix
    simp only [computeCrop, hfix, if_true]
    by_cases h1 : imgW / imgH < exportW / exportH
    · rw [if_pos h1, centeredCropTo_mk]
      refine ⟨by ring, rfl, ?_, hiw, le_refl imgW, div_pos hiw hta, ?_⟩
      · field_simp
      · rw [div_le_iff₀ hta]
        nlinarith [mul_lt_mul_of_pos_right h1 hih]
    · rw [if_neg h1]
      by_cases h2 : exportW / exportH < imgW / imgH
      · rw [if_pos h2, centeredCropTo_mk]
        refine ⟨rfl, by ring, ?_, mul_pos hih hta, ?_, hih, le_refl imgH⟩
        · field_simp
        · nlinarith [mul_lt_mul_of_pos_right h2 hih]
      · rw [if_neg h2, centeredCropTo_mk]
        have heq : imgW / imgH = exportW / exportH :=
          le_antisymm (not_lt.mp h2) (not_lt.mp h1)
        have hcross : imgW * exportH = imgH * exportW := by
          rw [div_eq_div_iff hih.ne' heh.ne'] at heq
          linarith
        exact ⟨by ring, by ring, hcross, hiw, le_refl imgW, hih, le_refl imgH⟩

/-- Witness for C2's amended statement at the counterexample input. -/
theorem C2_source_crop_amended_witness :
    centeredCropTo 1200 800 1200 600
      (computeCrop 1200 800 (some 600) none 1200 600) :=
  (C2_source_crop_amended 1200 800 1200 600 (some 600) none
    (by norm_num) (by norm_num) (by norm_num) (by norm_num)).2 (by decide)

/-- The drawing operations `exportBanner` performs on the main canvas for the
card, in program order (`src/js/export.js`, lines 196-269): composite the
blurred backdrop under the rounded clip, draw the three shadow fills, fill
the gradient tint, composite the noise texture, stroke the inset border,
fill the top highlight band. -/
inductive CardStep where
  | backdropComposite
  | shadowFills
  | gradientFill
  | noiseComposite
  | insetStroke
  | topHighlight
  deriving DecidableEq

/-- Order of the card-rendering operations in `src/js/export.js`. -/
def cardRenderSteps : List CardStep :=
  [.backdropComposite, .shadowFills, .gradientFill, .noiseComposite,
   .insetStroke, .topHighlight]

/-- Claim C3 counterexample: in the rendering sequence of
`src/js/export.js` the noise composite is drawn before the inset border
stroke and is not the final card-rendering operation. -/
theorem C3_noise_order_counterexample :
    cardRenderSteps.indexOf CardStep.noiseComposite
      < cardRenderSteps.indexOf CardStep.insetStroke ∧
    cardRenderSteps.getLast? ≠ some CardStep.noiseComposite := by decide

/-- Claim C3 (corrected): the card renderer does run its steps in one fixed
order, but in `src/js/export.js` the noise composite comes right after the
gradient tint and before both the inset border stroke and the top highlight
band; the top highlight band is the final card-rendering operation. -/
theorem C3_card_order_amended :
    cardRenderSteps.length = 6 ∧
    cardRenderSteps.indexOf CardStep.backdropComposite
      < cardRenderSteps.indexOf CardStep.shadowFills ∧
    cardRenderSteps.indexOf CardStep.shadowFills
      < cardRenderSteps.indexOf CardStep.gradientFill ∧
    cardRenderSteps.indexOf CardStep.gradientFill
      < cardRenderSteps.indexOf CardStep.noiseComposite ∧
    cardRenderSteps.indexOf CardStep.noiseComposite
      < cardRenderSteps.indexOf CardStep.insetStroke ∧
    cardRenderSteps.indexOf CardStep.insetStroke
      < cardRenderSteps.indexOf CardStep.topHighlight ∧
    cardRenderSteps.getLast? = some CardStep.topHighlight := by decide

/-- One shadow pass of the card drop shadow: canvas shadow parameters, the
shadow color channels, and the fill color used for the path fill. -/
structure ShadowSpec where
  blur : ℚ
  offsetY : ℚ
  alpha : ℚ
  shadowR : ℕ
  shadowG : ℕ
  shadowB : ℕ
  fillR : ℕ
  fillG : ℕ
  fillB : ℕ
  fillA : ℚ
  deriving DecidableEq

/-- The card shadow passes of `src/js/export.js`, lines 209-222: the
`shadowLayers` array, each entry drawn once with shadow color
`rgba(10, 10, 10, alpha)` and fill style `rgba(0, 0, 0, 0.01)`. -/
def cardShadowFills (scale : ℚ) : List ShadowSpec :=
  [ { blur := 4 * scale, offsetY := 2 * scale, alpha := 0.1,
      shadowR := 10, shadowG := 10, shadowB := 10,
      fillR := 0, fillG := 0, fillB := 0, fillA := 0.01 },
    { blur := 16 * scale, offsetY := 8 * scale, alpha := 0.2,
      shadowR := 10, shadowG := 10, shadowB := 10,
      fillR := 0, fillG := 0, fillB := 0, fillA := 0.01 },
    { blur := 48 * scale, offsetY := 16 * scale, alpha := 0.3,
      shadowR := 10, shadowG := 10, shadowB := 10,
      fillR := 0, fillG := 0, fillB := 0, fillA := 0.01 } ]

/-- Claim C4 (confirmed): the drop shadow is exactly three offset/blurred
fills of the card path with parameters (blur 4s, offsetY 2s, alpha 0.10),
(blur 16s, offsetY 8s, alpha 0.20), (blur 48s, offsetY 16s, alpha 0.30),
every pass with base shadow color rgb(10, 10, 10) and a near-transparent
fill (alpha 0.01). -/
theorem C4_shadow_layers (scale : ℚ) :
    (cardShadowFills scale).length = 3 ∧
    (cardShadowFills scale).map (fun l => (l.blur, l.offsetY, l.alpha))
      = [(4 * scale, 2 * scale, (0.10 : ℚ)), (16 * scale, 8 * scale, 0.20),
         (48 * scale, 16 * scale, 0.30)] ∧
    (cardShadowFills scale).map (fun l => (l.shadowR, l.shadowG, l.shadowB))
      = [(10, 10, 10), (10, 10, 10), (10, 10, 10)] ∧
    (cardShadowFills scale).map (fun l => (l.fillR, l.fillG, l.fillB, l.fillA))
      = [(0, 0, 0, (0.01 : ℚ)), (0, 0, 0, 0.01), (0, 0, 0, 0.01)] ∧
    (0.01 : ℚ) < 1 / 20 := by
  refine ⟨rfl, ?_, rfl, ?_, by norm_num⟩ <;> simp [cardShadowFills] <;> norm_num

/-- One text shadow pass: canvas blur, y offset and the global draw alpha. -/
structure TextShadowSpec where
  blur : ℚ
  offsetY : ℚ
  drawAlpha : ℚ
  deriving DecidableEq

/-- The three text shadow passes of `src/js/export.js`, lines 293-324. -/
def textShadowPasses (scale : ℚ) : List TextShadowSpec :=
  [ ⟨5 * scale, -2 * scale, 0.25⟩,
    ⟨0.5 * scale, -1 * scale, 0.2⟩,
    ⟨2 * scale, 1 * scale, 1⟩ ]

/-- Scale factor of `exportBanner` (`src/js/export.js`, line 95). -/
def scaleFactor (exportW previewW : ℚ) : ℚ := exportW / previewW

/-- Raster border radius (`src/js/export.js`, line 152). -/
def rasterBorderRadius (screenRadius scale : ℚ) : ℚ := screenRadius * scale

/-- Raster backdrop-blur radius (`src/js/export.js`, line 155): the fixed
on-screen 12px constant times the scale factor. -/
def rasterBackdropBlur (scale : ℚ) : ℚ := 12 * scale

/-- Raster font size (`src/js/export.js`, line 272). -/
def rasterFontSize (screenFontSize scale : ℚ) : ℚ := screenFontSize * scale

/-- Raster top-highlight band height (`src/js/export.js`, lines 263-267). -/
def rasterHighlightHeight (scale : ℚ) : ℚ := 12 * scale

/-- Claim C5 (confirmed): there is a single scale factor
`exportWidth / previewWidth`, and every length-valued visual quantity
(border radius, backdrop blur, shadow blur and offsets, font size, highlight
band height, text shadow blur and offsets) is its on-screen value times this
one factor; no effect derives its own independent scale. -/
theorem C5_single_scale_factor
    (exportW previewW screenRadius screenFontSize : ℚ) :
    scaleFactor exportW previewW = exportW / previewW ∧
    rasterBorderRadius screenRadius (scaleFactor exportW previewW)
      = screenRadius * scaleFactor exportW previewW ∧
    rasterBackdropBlur (scaleFactor exportW previewW)
      = 12 * scaleFactor exportW previewW ∧
    rasterFontSize screenFontSize (scaleFactor exportW previewW)
      = screenFontSize * scaleFactor exportW previewW ∧
    rasterHighlightHeight (scaleFactor exportW previewW)
      = 12 * scaleFactor exportW previewW ∧
    (cardShadowFills (scaleFactor exportW previewW)).map ShadowSpec.blur
      = [4 * scaleFactor exportW previewW, 16 * scaleFactor exportW previewW,
         48 * scaleFactor exportW previewW] ∧
    (cardShadowFills (scaleFactor exportW previewW)).map ShadowSpec.offsetY
      = [2 * scaleFactor exportW previewW, 8 * scaleFactor exportW previewW,
         16 * scaleFactor exportW previewW] ∧
    (textShadowPasses (scaleFactor exportW previewW)).map TextShadowSpec.blur
      = [5 * scaleFactor exportW previewW,
         (1 / 2) * scaleFactor exportW previewW,
         2 * scaleFactor exportW previewW] ∧
    (textShadowPasses (scaleFactor exportW previewW)).map
        TextShadowSpec.offsetY
      = [(-2) * scaleFactor exportW previewW,
         (-1) * scaleFactor exportW previewW,
         1 * scaleFactor exportW previewW] := by
  refine ⟨rfl, rfl, rfl, rfl, rfl, ?_, ?_, ?_, ?_⟩ <;>
    simp [cardShadowFills, textShadowPasses] <;> norm_num

/-- Events of one `exportBanner` invocation, abstracting the effectful
skeleton of `src/js/export.js`: the single decode attempt, drawing
operations on the output canvas, the download, and the `catch` block's
`console.error` plus `alert`. -/
inductive ExportEvent where
  | decodeAttempt
  | compositeOp
  | download
  | logError
  | alertUser
  deriving DecidableEq

/-- Effect trace of `exportBanner` (`src/js/export.js`, lines 59-340): the
image decode is awaited before any drawing; on success the 13 canvas
drawing operations run (background blit, backdrop composite, 3 shadow
fills, gradient fill, noise composite, inset stroke, highlight fill, 4 text
passes) followed by the download; on decode failure control jumps to the
single `catch` block, which logs the error and shows one alert. -/
def exportEvents (decodeOk : Bool) : List ExportEvent :=
  if decodeOk then
    .decodeAttempt :: (List.replicate 13 .compositeOp ++ [.download])
  else
    [.decodeAttempt, .logError, .alertUser]

/-- Claim C7 (confirmed): when decoding the source image fails the export
aborts before any compositing, no file is emitted, exactly one user-visible
failure is surfaced and the error is logged once, and no second decode
attempt is made; a successful decode is what leads to the single download. -/
theorem C7_decode_failure :
    exportEvents false = [.decodeAttempt, .logError, .alertUser] ∧
    (exportEvents false).count .compositeOp = 0 ∧
    (exportEvents false).count .download = 0 ∧
    (exportEvents false).count .alertUser = 1 ∧
    (exportEvents false).count .logError = 1 ∧
    (exportEvents false).count .decodeAttempt = 1 ∧
    (exportEvents true).count .download = 1 ∧
    (exportEvents true).count .alertUser = 0 := by decide

/-- Luma of a pixel (`src/js/export.js`, line 188): the `gray` value
`0.2989 R + 0.5870 G + 0.1140 B`. -/
def lumaOf (r g b : ℚ) : ℚ := 0.2989 * r + 0.5870 * g + 0.1140 * b

/-- One channel of the saturation boost (`src/js/export.js`, lines 189-191):
`Math.min(255, Math.max(0, gray + 1.8 * (channel - gray)))`. -/
def satBoost (gray c : ℚ) : ℚ := min 255 (max 0 (gray + 1.8 * (c - gray)))

/-- The per-pixel saturation transform applied to the blurred backdrop
buffer (`src/js/export.js`, lines 184-192). -/
def saturatePixel (r g b : ℚ) : ℚ × ℚ × ℚ :=
  let gray := lumaOf r g b
  (satBoost gray r, satBoost gray g, satBoost gray b)

theorem satBoost_nonneg (gray c : ℚ) : 0 ≤ satBoost gray c :=
  le_min (by norm_num) (le_max_left 0 _)

theorem satBoost_le (gray c : ℚ) : satBoost gray c ≤ 255 :=
  min_le_left _ _

/-- Claim C6 (confirmed): every channel is mapped by exactly
`clamp(luma + 1.8 (channel - luma), 0, 255)` with the luma of the pixel's
original channels, every output channel lies in [0, 255], and a gray pixel
`v = R = G = B` in [0, 255] is moved by at most `51/2500 = 0.0204 < 1/2`
(the luma weights sum to 0.9999, not 1), so integer gray values survive the
byte rounding unchanged. -/
theorem C6_saturation_boost (r g b v : ℚ) (hv0 : 0 ≤ v) (hv255 : v ≤ 255) :
    saturatePixel r g b
      = (min 255 (max 0 (lumaOf r g b + 1.8 * (r - lumaOf r g b))),
         min 255 (max 0 (lumaOf r g b + 1.8 * (g - lumaOf r g b))),
         min 255 (max 0 (lumaOf r g b + 1.8 * (b - lumaOf r g b)))) ∧
    (0 ≤ (saturatePixel r g b).1 ∧ (saturatePixel r g b).1 ≤ 255) ∧
    (0 ≤ (saturatePixel r g b).2.1 ∧ (saturatePixel r g b).2.1 ≤ 255) ∧
    (0 ≤ (saturatePixel r g b).2.2 ∧ (saturatePixel r g b).2.2 ≤ 255) ∧
    (saturatePixel v v v).2.1 = (saturatePixel v v v).1 ∧
    (saturatePixel v v v).2.2 = (saturatePixel v v v).1 ∧
    |(saturatePixel v v v).1 - v| ≤ 51 / 2500 ∧
    (51 : ℚ) / 2500 < 1 / 2 := by
  refine ⟨rfl, ⟨satBoost_nonneg _ _, satBoost_le _ _⟩,
    ⟨satBoost_nonneg _ _, satBoost_le _ _⟩,
    ⟨satBoost_nonneg _ _, satBoost_le _ _⟩, rfl, rfl, ?_, by norm_num⟩
  have hexpr : lumaOf v v v + 1.8 * (v - lumaOf v v v) = 12501 / 12500 * v := by
    unfold lumaOf
    ring
  have hnn : 0 ≤ 12501 / 12500 * v := by
    have : (0 : ℚ) ≤ 12501 / 12500 := by norm_num
    exact mul_nonneg this hv0
  have hfst : (saturatePixel v v v).1 = min 255 (12501 / 12500 * v) := by
    show satBoost (lumaOf v v v) v = _
    rw [satBoost, hexpr, max_eq_right hnn]
  rw [hfst]
  rcases le_total (12501 / 12500 * v) 255 with h | h
  · rw [min_eq_right h, abs_of_nonneg (by linarith)]
    linarith
  · rw [min_eq_left h, abs_of_nonneg (by linarith)]
    linarith

/-- Witness for C6 at the concrete pixel (10, 20, 30) and gray value 100. -/
theorem C6_saturation_boost_witness :
    0 ≤ (saturatePixel 10 20 30).1 ∧
    |(saturatePixel 100 100 100).1 - 100| ≤ 51 / 2500 :=
  ⟨(C6_saturation_boost 10 20 30 100 (by norm_num) (by norm_num)).2.1.1,
   (C6_saturation_boost 10 20 30 100 (by norm_num)
      (by norm_num)).2.2.2.2.2.2.1⟩

/-- ASCII whitespace, the relevant fragment of the JS regex class `\s` for
the strings reaching this call site. -/
def isSpaceJS (c : Char) : Bool :=
  c = ' ' || c.toNat = 9 || c.toNat = 10 || c.toNat = 11 ||
    c.toNat = 12 || c.toNat = 13

/-- Splits the maximal leading run of decimal digits (the greedy `\d+`). -/
def leadingDigits : List Char → List Char × List Char
  | [] => ([], [])
  | c :: rest =>
    if c.isDigit then
      let (d, r) := leadingDigits rest
      (c :: d, r)
    else ([], c :: rest)

/-- Skips the whitespace run matched by `\s*`. -/
def skipSpaces : List Char → List Char
  | [] => []
  | c :: rest => if isSpaceJS c then skipSpaces rest else c :: rest

/-- Decimal value of a digit string, as `parseInt` computes it on a pure
digit group. -/
def digitsVal (ds : List Char) : ℕ :=
  ds.foldl (fun n c => 10 * n + (c.toNat - 48)) 0

/-- Matches `(\d+),\s*(\d+),\s*(\d+)` right after the opening parenthesis
and returns the three parsed integers. -/
def matchTripleAfterParen (cs : List Char) : Option (ℕ × ℕ × ℕ) :=
  let (d1, r1) := leadingDigits cs
  if d1.isEmpty then none else
  match r1 with
  | ',' :: r2 =>
    let r3 := skipSpaces r2
    let (d2, r4) := leadingDigits r3
    if d2.isEmpty then none else
    match r4 with
    | ',' :: r5 =>
      let r6 := skipSpaces r5
      let (d3, _) := leadingDigits r6
      if d3.isEmpty then none
      else some (digitsVal d1, digitsVal d2, digitsVal d3)
    | _ => none
  | _ => none

/-- Tries the pattern `rgba?\((\d+),\s*(\d+),\s*(\d+)` anchored at the head
of the character list. -/
def matchRgbAt : List Char → Option (ℕ × ℕ × ℕ)
  | 'r' :: 'g' :: 'b' :: 'a' :: '(' :: cs => matchTripleAfterParen cs
  | 'r' :: 'g' :: 'b' :: '(' :: cs => matchTripleAfterParen cs
  | _ => none

/-- Unanchored regex search: first position where the pattern matches. -/
def searchRgb : List Char → Option (ℕ × ℕ × ℕ)
  | [] => none
  | c :: rest =>
    match matchRgbAt (c :: rest) with
    | some v => some v
    | none => searchRgb rest

/-- The text-color parsing of the draft exporter
(`src/unnamed/part_000`, lines 224-231):
`textColor.match(/rgba?\((\d+),\s*(\d+),\s*(\d+)/)` with the default
`r = g = b = 255` kept when the match fails. -/
def parseTextColor (s : String) : ℕ × ℕ × ℕ :=
  match searchRgb s.data with
  | some (r, g, b) => (r, g, b)
  | none => (255, 255, 255)

/-- Claim C9 counterexample: the digit groups are not clamped, so a
matching string can yield a channel value above 255. -/
theorem C9_channel_range_counterexample :
    parseTextColor "rgb(999, 0, 0)" = (999, 0, 0) ∧
    ¬(parseTextColor "rgb(999, 0, 0)").1 ≤ 255 := by decide

/-- Claim C9 (corrected): parsing an `rgb()/rgba()` triple yields the
literally matched nonnegative decimal integers, which are not clamped to
255 (e.g. `rgb(999, 0, 0)` parses to 999); any string the pattern does not
match falls back to opaque white (255, 255, 255), and the parse is a total
function that never raises. -/
theorem C9_color_parse_amended :
    (∀ s : String, searchRgb s.data = none →
      parseTextColor s = (255, 255, 255)) ∧
    parseTextColor "rgb(12, 34, 56)" = (12, 34, 56) ∧
    parseTextColor "rgba(250, 250, 250, 0.8)" = (250, 250, 250) ∧
    parseTextColor "rgb(999, 0, 0)" = (999, 0, 0) ∧
    parseTextColor "not-a-color" = (255, 255, 255) := by
  refine ⟨?_, by decide, by decide, by decide, by decide⟩
  intro s h
  simp [parseTextColor, h]

/-- Witness for C9: a string without any `rgb(`/`rgba(` occurrence falls
back to opaque white. -/
theorem C9_color_parse_amended_witness :
    parseTextColor "gold" = (255, 255, 255) :=
  C9_color_parse_amended.1 "gold" (by decide)

end BannerExport
